import Mathlib

/-!
Shallow embedding of redbot's Last-Modified active check
(`src/redbot/resource/active_check/lm_validate.py`) together with the
note-key and header-presenter fragments of the HTML formatter
(`src/redbot/formatter/html.py`), and proofs of the specification
claims about them.

Python machine integers are modelled as `Int`/`Nat`; fallible library
calls (`datetime.utcfromtimestamp`, which raises `ValueError` out of
range) are modelled as `Option`-returning functions.
-/

namespace Redbot

/-- Note severity levels, from `redbot.speak.levels`. -/
inductive Level
  | good
  | warn
  | bad
  | info
deriving DecidableEq

/-- The note classes that `lm_validate.py` can emit.  The first five are
declared in `lm_validate.py` itself; `MISSING_HDRS_304` is imported there
from `redbot.resource.active_check.base`. -/
inductive NoteName
  | LM_SUBREQ_PROBLEM
  | IMS_304
  | IMS_FULL
  | IMS_UNKNOWN
  | IMS_STATUS
  | MISSING_HDRS_304
deriving DecidableEq

/-- The `level` class attribute of each note class, read off the source of
`lm_validate.py`.  The level of `MISSING_HDRS_304` is modelled from the
spec: the per-missing-header notes are "additional" notes distinct from
the single Good note, so their level is not Good; we model it as Warn. -/
def noteLevel : NoteName → Level
  | NoteName.LM_SUBREQ_PROBLEM => Level.bad
  | NoteName.IMS_304 => Level.good
  | NoteName.IMS_FULL => Level.warn
  | NoteName.IMS_UNKNOWN => Level.info
  | NoteName.IMS_STATUS => Level.info
  | NoteName.MISSING_HDRS_304 => Level.warn

/-- One emitted note: the `subject` string passed to `add_base_note`, the
note class, and the keyword parameters (values are Python strings or
`None`, hence `Option String`). -/
structure Note where
  subject : String
  name : NoteName
  vars : List (String × Option String)
deriving DecidableEq

/-- The slice of an HTTP exchange that `lm_validate.py` reads: the
completeness flag, the status code (`None` is possible, hence `Option`),
the body hash `payload_md5`, the parsed `last-modified` header (an epoch
timestamp when present — this models `parsed_headers['last-modified']`),
the set of parsed header names (the key view of `parsed_headers` used for
membership tests), and `http_error.desc`. -/
structure Response where
  complete : Bool
  status_code : Option String
  payload_md5 : String
  lastModified : Option Int
  parsedHeaderNames : List String
  httpErrorDesc : String
deriving DecidableEq

/-- Python's `x or default` for a string-or-None value: the default is
taken when the value is `None` or the empty string. -/
def pyOr (v : Option String) (d : String) : String :=
  match v with
  | none => d
  | some s => if s = "" then d else s

/-- Python's `"%s" % v` for a string-or-None value. -/
def pyStr (v : Option String) : String :=
  match v with
  | none => "None"
  | some s => s

/-- Python's `"%.Nd" % n`: the magnitude is zero-padded on the left to at
least `prec` digits, with a leading minus sign for negative `n`. -/
def pyFmtD (prec : Nat) (n : Int) : String :=
  let padded := String.mk (List.replicate (prec - (toString n.natAbs).length) '0')
    ++ toString n.natAbs
  if n < 0 then "-" ++ padded else padded

/-! ## `datetime.utcfromtimestamp`

`datetime.utcfromtimestamp(ts)` converts an epoch-seconds value to a UTC
calendar date and time, raising `ValueError` when the result is outside
the representable years 1..9999.  We model the conversion with the
standard proleptic-Gregorian civil-from-days algorithm (era = 400-year
cycle of 146097 days, epoch day 0 = 1970-01-01, which is day 719468 of
its era scheme), returning `none` for the `ValueError` case.  `weekday`
follows Python's convention Monday = 0 .. Sunday = 6; 1970-01-01 was a
Thursday (= 3). -/

/-- A Python `datetime` value as far as `lm_validate.py` reads it. -/
structure PyDatetime where
  year : Int
  month : Nat
  day : Nat
  hour : Nat
  minute : Nat
  second : Nat
  weekday : Nat
deriving DecidableEq

/-- Whole days since the epoch (floor division, as in Python). -/
def lmDays (ts : Int) : Int := ts / 86400

/-- Seconds within the day. -/
def lmSod (ts : Int) : Nat := (ts % 86400).toNat

/-- Day count shifted so that day 0 is 0000-03-01 of the era scheme. -/
def lmZ (ts : Int) : Int := lmDays ts + 719468

/-- The 400-year era containing the day. -/
def lmEra (ts : Int) : Int := lmZ ts / 146097

/-- Day-of-era, in `[0, 146096]`. -/
def lmDoe (ts : Int) : Int := lmZ ts % 146097

/-- The adjusted day number whose quotient by 365 is the year-of-era. -/
def lmNum (doe : Int) : Int := doe - doe / 1460 + doe / 36524 - doe / 146096

/-- Year-of-era, in `[0, 399]`. -/
def lmYoe (doe : Int) : Int := lmNum doe / 365

/-- First day-of-era of a given year-of-era (March-based years). -/
def lmSd (y : Int) : Int := 365 * y + y / 4 - y / 100

/-- The last day-of-era belonging to year-of-era `y` (the day before the
next year starts; year 399 ends at the last day of the era). -/
def lmUb (y : Nat) : Int := if y = 399 then 146096 else lmSd (y + 1) - 1

/-- Day-of-year (March-based), in `[0, 365]`. -/
def lmDoy (doe : Int) : Int := doe - lmSd (lmYoe doe)

/-- Month index of the March-based year, in `[0, 11]`. -/
def lmMp (doe : Int) : Int := (5 * lmDoy doe + 2) / 153

/-- Day of month, in `[1, 31]`. -/
def lmD (doe : Int) : Int := lmDoy doe - (153 * lmMp doe + 2) / 5 + 1

/-- Calendar month, in `[1, 12]`. -/
def lmM (doe : Int) : Int := if lmMp doe < 10 then lmMp doe + 3 else lmMp doe - 9

/-- Calendar year (March-based years 10 and 11 belong to the next
January-based year). -/
def lmY (ts : Int) : Int :=
  lmYoe (lmDoe ts) + lmEra ts * 400 + (if lmMp (lmDoe ts) < 10 then 0 else 1)

/-- `datetime.utcfromtimestamp`, with `none` for the `ValueError` raised
when the resulting year falls outside 1..9999. -/
def utcfromtimestamp (ts : Int) : Option PyDatetime :=
  if 1 ≤ lmY ts ∧ lmY ts ≤ 9999 then
    some
      { year := lmY ts
        month := (lmM (lmDoe ts)).toNat
        day := (lmD (lmDoe ts)).toNat
        hour := lmSod ts / 3600
        minute := lmSod ts / 60 % 60
        second := lmSod ts % 60
        weekday := ((lmDays ts + 3) % 7).toNat }
  else none

namespace LmValidate

/-- `LmValidate._weekdays`. -/
def _weekdays : List String := ["Mon", "Tue", "Wed", "Thu", "Fri", "Sat", "Sun"]

/-- `LmValidate._months` (index 0 is Python's `None` placeholder). -/
def _months : List (Option String) :=
  [none, some "Jan", some "Feb", some "Mar", some "Apr", some "May", some "Jun",
   some "Jul", some "Aug", some "Sep", some "Oct", some "Nov", some "Dec"]

/-- The `date_str` computed in `LmValidate.modify_req_hdrs`:
`u"%s, %.2d %s %.4d %.2d:%.2d:%.2d GMT" % (weekday, day, month, year,
hour, minute, second)`, with the weekday and month read from the two
static tables. -/
def date_str (dt : PyDatetime) : String :=
  pyStr (some (_weekdays.getD dt.weekday ""))
    ++ ", " ++ pyFmtD 2 (dt.day : Int)
    ++ " " ++ pyStr (_months.getD dt.month none)
    ++ " " ++ pyFmtD 4 dt.year
    ++ " " ++ pyFmtD 2 (dt.hour : Int)
    ++ ":" ++ pyFmtD 2 (dt.minute : Int)
    ++ ":" ++ pyFmtD 2 (dt.second : Int)
    ++ " GMT"

/-- `LmValidate.modify_req_hdrs`: copy the base request headers; when the
base response has a parsed `last-modified` header whose timestamp is
interpretable, append one `If-Modified-Since` pair; on `ValueError`
(uninterpretable timestamp) return the headers unmodified. -/
def modify_req_hdrs (base_request_headers : List (String × String))
    (base_response : Response) : List (String × String) :=
  match base_response.lastModified with
  | none => base_request_headers
  | some lm =>
    match utcfromtimestamp lm with
    | none => base_request_headers
    | some dt => base_request_headers ++ [("If-Modified-Since", date_str dt)]

/-- `LmValidate.preflight`: applicable exactly when the base response has
a parsed `last-modified` header; when it does not, `base.ims_support` is
set to `False`.  Returns (applicable?, new value of `base.ims_support`). -/
def preflight (ims_support : Option Bool) (base_response : Response) :
    Bool × Option Bool :=
  if base_response.lastModified.isSome then (true, ims_support)
  else (false, some false)

/-- The note built for one missing header by `check_missing_hdrs`. -/
def mkMissingNote (subject : String) (h : String) : Note :=
  { subject := subject, name := NoteName.MISSING_HDRS_304, vars := [("header", some h)] }

/-- Modelled from the spec: `SubRequest.check_missing_hdrs` is defined in
`redbot/resource/active_check/base.py`, which is not among the provided
source files.  Per the spec, for each header of `hdrs` absent from the
probe response, one separate, distinct note naming that header is
emitted. -/
def check_missing_hdrs (hdrs : List String) (probe : Response) (subject : String) :
    List Note :=
  (hdrs.filter (fun h => !(probe.parsedHeaderNames.contains h))).map (mkMissingNote subject)

/-- The five headers `LmValidate.done` checks for on a `304`. -/
def missingHdrList : List String :=
  ["cache-control", "content-location", "etag", "expires", "vary"]

/-- `LmValidate.done`: classify the completed probe.  Takes the prior
value of `base.ims_support` and returns its new value together with the
notes appended to the base resource, in emission order. -/
def done (ims_support : Option Bool) (base_response : Response) (probe : Response) :
    Option Bool × List Note :=
  if probe.complete = false then
    (ims_support,
      [{ subject := "", name := NoteName.LM_SUBREQ_PROBLEM,
         vars := [("problem", some probe.httpErrorDesc)] }])
  else if probe.status_code = some "304" then
    (some true,
      { subject := "header-last-modified", name := NoteName.IMS_304, vars := [] }
        :: check_missing_hdrs missingHdrList probe "If-Modified-Since")
  else if probe.status_code = base_response.status_code then
    if probe.payload_md5 = base_response.payload_md5 then
      (some false,
        [{ subject := "header-last-modified", name := NoteName.IMS_FULL, vars := [] }])
    else
      (ims_support,
        [{ subject := "header-last-modified", name := NoteName.IMS_UNKNOWN, vars := [] }])
  else
    (ims_support,
      [{ subject := "header-last-modified", name := NoteName.IMS_STATUS,
         vars := [("ims_status", probe.status_code),
                  ("enc_ims_status", some (pyOr probe.status_code "(unknown)"))] }])

/-- Modelled from the spec: the Orchestrator (`SubRequest.check` in
`redbot/resource/active_check/base.py`, not among the provided source
files) dispatches the probe and later runs classification only when
`preflight` returned true; a skipped check emits no note.  Returns
(probe dispatched?, final `ims_support`, emitted notes). -/
def run_check (ims_support : Option Bool) (base_response : Response) (probe : Response) :
    Bool × Option Bool × List Note :=
  let p := preflight ims_support base_response
  if p.1 then
    let r := done p.2 base_response probe
    (true, r.1, r.2)
  else
    (false, p.2, [])

end LmValidate

/-! ## Spec-side rendering of the conditional header value

A second definition of the `If-Modified-Since` value, written from the
spec's words ("weekday and month rendered from static three-letter
English tables, day/hour/minute/second zero-padded to two digits, year
zero-padded to four digits, always suffixed GMT"), to be compared with
the source-side `date_str`. -/

/-- Zero-pad a natural number on the left to at least `w` digits. -/
def zpad (w : Nat) (n : Nat) : String :=
  String.mk (List.replicate (w - (toString n).length) '0') ++ toString n

/-- The spec's static three-letter English weekday table. -/
def specWeekdayTable : List String := ["Mon", "Tue", "Wed", "Thu", "Fri", "Sat", "Sun"]

/-- The spec's static three-letter English month table. -/
def specMonthTable : List String :=
  ["Jan", "Feb", "Mar", "Apr", "May", "Jun", "Jul", "Aug", "Sep", "Oct", "Nov", "Dec"]

/-- The conditional header value as the spec describes it. -/
def render_ims_spec (dt : PyDatetime) : String :=
  specWeekdayTable.getD dt.weekday ""
    ++ ", " ++ zpad 2 dt.day
    ++ " " ++ specMonthTable.getD (dt.month - 1) ""
    ++ " " ++ zpad 4 dt.year.toNat
    ++ " " ++ zpad 2 dt.hour
    ++ ":" ++ zpad 2 dt.minute
    ++ ":" ++ zpad 2 dt.second
    ++ " GMT"

/-! ## HTML formatter fragments (`src/redbot/formatter/html.py`) -/

namespace SingleEntryHtmlFormatter

/-- The `data-name` key written for each note's list item by
`SingleEntryHtmlFormatter.format_category`: `"noteid-%s" % id(note)`.
`id(note)` is CPython's runtime object identity, an interpreter-supplied
integer that is not a field of the note; it is therefore an explicit
argument here. -/
def noteid (note : Note) (pyId : Nat) : String :=
  "noteid-" ++ toString pyId

/-- The key under which `format_category` stores the note's detail text in
`hidden_text`: the same `"noteid-%s" % id(note)`. -/
def hiddenKey (note : Note) (pyId : Nat) : String :=
  noteid note pyId

end SingleEntryHtmlFormatter

namespace TableHtmlFormatter

/-- The `name` key written for each note's list item by
`TableHtmlFormatter.format_problems`: `"msgid-%s" % id(m)`, with `id(m)`
the runtime object identity passed explicitly here. -/
def msgid (note : Note) (pyId : Nat) : String :=
  "msgid-" ++ toString pyId

end TableHtmlFormatter

namespace HeaderPresenter

/-- The distinct attribute objects reachable by `getattr` on a
`HeaderPresenter` instance (besides underscore-initial ones): the three
methods `Show`, `BARE_URI`, `I`, and the instance attribute
`formatter` set in `__init__`.  The class assignments
`content_location = location = x_xrds_location = BARE_URI` alias three
further names to the `BARE_URI` method. -/
inductive Attr
  | Show
  | BARE_URI
  | I
  | formatter
deriving DecidableEq

/-- The attribute table of a `HeaderPresenter` instance: every
non-underscore-initial name `hasattr` can find, with the object it
resolves to. -/
def attrs : List (String × Attr) :=
  [("Show", Attr.Show), ("BARE_URI", Attr.BARE_URI), ("I", Attr.I),
   ("formatter", Attr.formatter),
   ("content_location", Attr.BARE_URI), ("location", Attr.BARE_URI),
   ("x_xrds_location", Attr.BARE_URI)]

/-- How `HeaderPresenter.Show` chose to present a header: call the
attribute found by reflection, or fall back to the default
`self.I(e_html(value), len(name))` escape-and-wrap path. -/
inductive Dispatch
  | attrCall (a : Attr)
  | default
deriving DecidableEq

/-- `name.lower().replace('-', '_')` from `HeaderPresenter.Show`. -/
def name_token (name : String) : String :=
  String.mk (name.data.map (fun c => if c.toLower = '-' then '_' else c.toLower))

/-- The resolution step of `HeaderPresenter.Show` on an already-computed
token: `if name_token[0] != "_" and hasattr(self, name_token):
getattr(self, name_token)(name, value) else: default`.  `none` models the
`IndexError` raised by `name_token[0]` on an empty name. -/
def dispatchTok (token : String) : Option Dispatch :=
  if token.length = 0 then none
  else
    match attrs.lookup token with
    | some a => if token.front = '_' then some Dispatch.default else some (Dispatch.attrCall a)
    | none => some Dispatch.default

/-- The handler resolution performed by `HeaderPresenter.Show` for a
header name. -/
def Show (name : String) : Option Dispatch :=
  dispatchTok (name_token name)

/-- The claim's resolution rule, written from the spec's words: an
explicit mapping from the closed set of mechanism tokens (the three
bare-URI headers) to their handler, resolved by table lookup, with every
other header taking the default presentation. -/
def specDispatch (name : String) : Option Dispatch :=
  if name_token name ∈ ["content_location", "location", "x_xrds_location"] then
    some (Dispatch.attrCall Attr.BARE_URI)
  else
    some Dispatch.default

end HeaderPresenter

/-! ## Concrete exchanges used as witnesses and counterexamples -/

/-- A base exchange: a complete `200` with a `Last-Modified` of
2023-03-05T07:08:09 UTC (epoch 1678000089). -/
def demoBase : Response :=
  { complete := true, status_code := some "200", payload_md5 := "d41d8cd98f"
    lastModified := some 1678000089
    parsedHeaderNames := ["content-type", "last-modified"], httpErrorDesc := "" }

/-- A base exchange with no `Last-Modified` header. -/
def demoBaseNoLm : Response :=
  { complete := true, status_code := some "200", payload_md5 := "d41d8cd98f"
    lastModified := none
    parsedHeaderNames := ["content-type"], httpErrorDesc := "" }

/-- A probe response: a complete `304` carrying only `etag` and `date`. -/
def demoProbe304 : Response :=
  { complete := true, status_code := some "304", payload_md5 := ""
    lastModified := none
    parsedHeaderNames := ["etag", "date"], httpErrorDesc := "" }

/-- A probe response that never completed. -/
def demoProbeIncomplete : Response :=
  { complete := false, status_code := none, payload_md5 := ""
    lastModified := none
    parsedHeaderNames := [], httpErrorDesc := "connection reset by peer" }

/-- A complete probe repeating the base status with the same body hash. -/
def demoProbeSameHash : Response :=
  { complete := true, status_code := some "200", payload_md5 := "d41d8cd98f"
    lastModified := none
    parsedHeaderNames := ["content-type"], httpErrorDesc := "" }

/-- A complete probe repeating the base status with a different body hash. -/
def demoProbeDiffHash : Response :=
  { complete := true, status_code := some "200", payload_md5 := "e99a18c428"
    lastModified := none
    parsedHeaderNames := ["content-type"], httpErrorDesc := "" }

/-- A complete probe with an unexpected status. -/
def demoProbe500 : Response :=
  { complete := true, status_code := some "500", payload_md5 := ""
    lastModified := none
    parsedHeaderNames := [], httpErrorDesc := "" }

/-- A sample note. -/
def demoNote : Note :=
  { subject := "header-last-modified", name := NoteName.IMS_304, vars := [] }

/-- Sample base request headers. -/
def demoReqHdrs : List (String × String) :=
  [("Host", "example.org"), ("User-Agent", "RED/1.0")]

/-- A base exchange whose `Last-Modified` timestamp overflows the
representable datetime range (year 11476), triggering the `ValueError`
fallback of `modify_req_hdrs`. -/
def demoBaseFarFuture : Response :=
  { complete := true, status_code := some "200", payload_md5 := "d41d8cd98f"
    lastModified := some 300000000000
    parsedHeaderNames := ["content-type", "last-modified"], httpErrorDesc := "" }

/-! ## Helper lemmas: correctness bounds of the calendar conversion -/

theorem lmNum_mono (a b : Int) (h : a ≤ b) : lmNum a ≤ lmNum b := by
  unfold lmNum
  omega

theorem lmSd_step (y : Int) : lmSd y + 364 ≤ lmSd (y + 1) := by
  unfold lmSd
  omega

set_option maxRecDepth 2000 in
theorem lmInterval : ∀ y : Nat, y < 400 →
    365 * (y : Int) ≤ lmNum (lmSd y) ∧ lmNum (lmUb y) ≤ 365 * (y : Int) + 364 ∧
    lmUb y - lmSd y ≤ 365 ∧ lmSd y ≤ lmUb y ∧ 0 ≤ lmSd y := by
  decide

theorem lmCoverage : ∀ n : Nat, n ≤ 146096 →
    ∃ y : Nat, y ≤ 399 ∧ lmSd y ≤ (n : Int) ∧ (n : Int) ≤ lmUb y := by
  intro n
  induction n with
  | zero => intro _; exact ⟨0, by norm_num, by decide, by decide⟩
  | succ m ih =>
    intro hm
    obtain ⟨y, hy, hsd, hub⟩ := ih (by omega)
    by_cases hstep : (m : Int) + 1 ≤ lmUb y
    · exact ⟨y, hy, by push_cast; omega, by push_cast; omega⟩
    · by_cases h399 : y = 399
      · exfalso
        subst h399
        simp [lmUb] at hub hstep
        omega
      · refine ⟨y + 1, ?_, ?_, ?_⟩
        · have h1 := lmInterval y (by omega)
          omega
        · have h1 := lmInterval y (by omega)
          simp only [lmUb, if_neg h399] at hub hstep
          push_cast
          omega
        · have h1 := lmInterval y (by omega)
          have h2 := lmInterval (y + 1) (by omega)
          simp only [lmUb, if_neg h399] at hub hstep
          by_cases h398 : y + 1 = 399
          · simp only [lmUb, if_pos h398] at h2 ⊢
            push_cast at *
            omega
          · simp only [lmUb, if_neg h398] at h2 ⊢
            have h3 := lmSd_step ((y : Int) + 1)
            push_cast at *
            omega

theorem lmYoe_doy_bounds (doe : Int) (h0 : 0 ≤ doe) (h1 : doe ≤ 146096) :
    0 ≤ lmYoe doe ∧ lmYoe doe ≤ 399 ∧
    0 ≤ doe - lmSd (lmYoe doe) ∧ doe - lmSd (lmYoe doe) ≤ 365 := by
  obtain ⟨y, hy, hsd, hub⟩ := lmCoverage doe.toNat (by omega)
  have hcast : ((doe.toNat : Nat) : Int) = doe := by omega
  rw [hcast] at hsd hub
  have hI := lmInterval y (by omega)
  have hm1 := lmNum_mono (lmSd y) doe hsd
  have hm2 := lmNum_mono doe (lmUb y) hub
  have hyoe : lmYoe doe = (y : Int) := by
    unfold lmYoe
    omega
  rw [hyoe]
  omega

theorem lmM_bounds (doe : Int) (h0 : 0 ≤ doe) (h1 : doe ≤ 146096) :
    1 ≤ lmM doe ∧ lmM doe ≤ 12 := by
  have h := lmYoe_doy_bounds doe h0 h1
  unfold lmM lmMp lmDoy
  omega

theorem lmD_bounds (doe : Int) (h0 : 0 ≤ doe) (h1 : doe ≤ 146096) :
    1 ≤ lmD doe ∧ lmD doe ≤ 31 := by
  have h := lmYoe_doy_bounds doe h0 h1
  unfold lmD lmMp lmDoy
  omega

theorem lmDoe_range (ts : Int) : 0 ≤ lmDoe ts ∧ lmDoe ts ≤ 146096 := by
  unfold lmDoe
  omega

/-- Every datetime produced by `utcfromtimestamp` has its fields in the
calendar ranges. -/
theorem utcfromtimestamp_field_bounds (ts : Int) (dt : PyDatetime)
    (h : utcfromtimestamp ts = some dt) :
    1 ≤ dt.year ∧ dt.year ≤ 9999 ∧ 1 ≤ dt.month ∧ dt.month ≤ 12 ∧
    1 ≤ dt.day ∧ dt.day ≤ 31 ∧ dt.hour < 24 ∧ dt.minute < 60 ∧
    dt.second < 60 ∧ dt.weekday < 7 := by
  unfold utcfromtimestamp at h
  split at h
  case isTrue hy =>
    obtain ⟨hdoe0, hdoe1⟩ := lmDoe_range ts
    have hM := lmM_bounds (lmDoe ts) hdoe0 hdoe1
    have hD := lmD_bounds (lmDoe ts) hdoe0 hdoe1
    have hsod : lmSod ts < 86400 := by unfold lmSod; omega
    injection h with h
    subst h
    refine ⟨hy.1, hy.2, ?_, ?_, ?_, ?_, ?_, ?_, ?_, ?_⟩ <;> simp only [] <;> omega
  case isFalse => exact absurd h (by simp)

/-! ## Helper lemmas: the rendered header value matches the spec's format -/

theorem pyFmtD_eq_zpad (p : Nat) (n : Int) (h : 0 ≤ n) :
    pyFmtD p n = zpad p n.toNat := by
  simp only [pyFmtD, zpad]
  rw [if_neg (by omega), show n.natAbs = n.toNat from by omega]

theorem months_getD_eq (m : Nat) (h1 : 1 ≤ m) (h2 : m ≤ 12) :
    pyStr (LmValidate._months.getD m none) = specMonthTable.getD (m - 1) "" := by
  interval_cases m <;> rfl

theorem date_str_eq_render_ims_spec (dt : PyDatetime) (hm1 : 1 ≤ dt.month)
    (hm2 : dt.month ≤ 12) (hy : 0 ≤ dt.year) :
    LmValidate.date_str dt = render_ims_spec dt := by
  unfold LmValidate.date_str render_ims_spec
  rw [months_getD_eq dt.month hm1 hm2]
  rw [pyFmtD_eq_zpad 2 (dt.day : Int) (by omega), pyFmtD_eq_zpad 4 dt.year hy,
      pyFmtD_eq_zpad 2 (dt.hour : Int) (by omega),
      pyFmtD_eq_zpad 2 (dt.minute : Int) (by omega),
      pyFmtD_eq_zpad 2 (dt.second : Int) (by omega)]
  rw [show ((dt.day : Int)).toNat = dt.day from by omega,
      show ((dt.hour : Int)).toNat = dt.hour from by omega,
      show ((dt.minute : Int)).toNat = dt.minute from by omega,
      show ((dt.second : Int)).toNat = dt.second from by omega]
  rfl

/-! ## Helper lemmas: counting the notes of `check_missing_hdrs` -/

theorem countP_cmh_zero (hdrs : List String) (probe : Response) (s : String)
    (f : Note → Bool) (hf : ∀ hd : String, f (LmValidate.mkMissingNote s hd) = false) :
    (LmValidate.check_missing_hdrs hdrs probe s).countP f = 0 := by
  unfold LmValidate.check_missing_hdrs
  rw [List.countP_map, List.countP_eq_zero]
  intro a _
  simp [Function.comp, hf]

theorem countP_cmh_header (hdrs : List String) (probe : Response) (s hdr : String) :
    (LmValidate.check_missing_hdrs hdrs probe s).countP
        (fun n => decide (n.name = NoteName.MISSING_HDRS_304 ∧ ("header", some hdr) ∈ n.vars))
      = if probe.parsedHeaderNames.contains hdr then 0 else hdrs.count hdr := by
  induction hdrs with
  | nil => simp [LmValidate.check_missing_hdrs]
  | cons a t ih =>
    unfold LmValidate.check_missing_hdrs at ih ⊢
    by_cases hmema : a ∈ probe.parsedHeaderNames
    · have hcond : (!probe.parsedHeaderNames.contains a) = false := by simp [hmema]
      simp only [List.filter_cons, hcond, Bool.false_eq_true, if_false]
      rw [ih]
      by_cases hmemh : hdr ∈ probe.parsedHeaderNames
      · simp [hmemh]
      · have hne : hdr ≠ a := fun he => hmemh (he ▸ hmema)
        simp [hmemh, List.count_cons, hne]
    · have hcond : (!probe.parsedHeaderNames.contains a) = true := by simp [hmema]
      simp only [List.filter_cons, hcond, if_true]
      rw [List.map_cons, List.countP_cons, ih]
      by_cases hmemh : hdr ∈ probe.parsedHeaderNames
      · have hne : hdr ≠ a := fun he => hmema (he ▸ hmemh)
        simp [hmemh, LmValidate.mkMissingNote, hne]
      · by_cases he : a = hdr
        · subst he
          simp [hmemh, LmValidate.mkMissingNote, List.count_cons]
        · have hne : hdr ≠ a := fun hh => he hh.symm
          simp [hmemh, LmValidate.mkMissingNote, List.count_cons, he, hne]

theorem missingHdrList_count : ∀ hd ∈ LmValidate.missingHdrList,
    LmValidate.missingHdrList.count hd = 1 := by decide

/-! ## Helper lemmas: branch behavior of `done` -/

theorem done_incomplete (flag : Option Bool) (base probe : Response)
    (hc : probe.complete = false) :
    LmValidate.done flag base probe =
      (flag, [{ subject := "", name := NoteName.LM_SUBREQ_PROBLEM,
                vars := [("problem", some probe.httpErrorDesc)] }]) := by
  unfold LmValidate.done
  rw [if_pos hc]

theorem done_304 (flag : Option Bool) (base probe : Response)
    (hc : probe.complete = true) (hs : probe.status_code = some "304") :
    LmValidate.done flag base probe =
      (some true,
        { subject := "header-last-modified", name := NoteName.IMS_304, vars := [] }
          :: LmValidate.check_missing_hdrs LmValidate.missingHdrList probe
               "If-Modified-Since") := by
  unfold LmValidate.done
  rw [if_neg (by simp [hc]), if_pos hs]

theorem done_same_status_same_hash (flag : Option Bool) (base probe : Response)
    (hc : probe.complete = true) (h304 : probe.status_code ≠ some "304")
    (hs : probe.status_code = base.status_code)
    (hmd5 : probe.payload_md5 = base.payload_md5) :
    LmValidate.done flag base probe =
      (some false,
        [{ subject := "header-last-modified", name := NoteName.IMS_FULL, vars := [] }]) := by
  unfold LmValidate.done
  rw [if_neg (by simp [hc]), if_neg h304, if_pos hs, if_pos hmd5]

theorem done_same_status_diff_hash (flag : Option Bool) (base probe : Response)
    (hc : probe.complete = true) (h304 : probe.status_code ≠ some "304")
    (hs : probe.status_code = base.status_code)
    (hmd5 : probe.payload_md5 ≠ base.payload_md5) :
    LmValidate.done flag base probe =
      (flag,
        [{ subject := "header-last-modified", name := NoteName.IMS_UNKNOWN, vars := [] }]) := by
  unfold LmValidate.done
  rw [if_neg (by simp [hc]), if_neg h304, if_pos hs, if_neg hmd5]

theorem done_other_status (flag : Option Bool) (base probe : Response)
    (hc : probe.complete = true) (h304 : probe.status_code ≠ some "304")
    (hs : probe.status_code ≠ base.status_code) :
    LmValidate.done flag base probe =
      (flag,
        [{ subject := "header-last-modified", name := NoteName.IMS_STATUS,
           vars := [("ims_status", probe.status_code),
                    ("enc_ims_status", some (pyOr probe.status_code "(unknown)"))] }]) := by
  unfold LmValidate.done
  rw [if_neg (by simp [hc]), if_neg h304, if_neg hs]

/-! ## Claim theorems -/

/-- Claim C1: for every Last-Modified validation probe whose response is
complete with status code `304`, `done` sets `ims_support` to true, emits
exactly one Good note (`IMS_304`), and, for each header among
cache-control, content-location, etag, expires and vary absent from the
probe response, exactly one additional distinct note naming that
header. -/
theorem claim_C1_ims304_good_and_missing_headers
    (flag : Option Bool) (base probe : Response)
    (hc : probe.complete = true) (hs : probe.status_code = some "304") :
    (LmValidate.done flag base probe).1 = some true ∧
    ((LmValidate.done flag base probe).2.countP
        (fun n => decide (n.name = NoteName.IMS_304))) = 1 ∧
    ((LmValidate.done flag base probe).2.countP
        (fun n => decide (noteLevel n.name = Level.good))) = 1 ∧
    ∀ hd ∈ LmValidate.missingHdrList,
      ((LmValidate.done flag base probe).2.countP
          (fun n => decide (n.name = NoteName.MISSING_HDRS_304 ∧
            ("header", some hd) ∈ n.vars)))
        = if probe.parsedHeaderNames.contains hd then 0 else 1 := by
  rw [done_304 flag base probe hc hs]
  refine ⟨rfl, ?_, ?_, ?_⟩
  · rw [List.countP_cons, countP_cmh_zero _ _ _ _ (fun hd => by rfl)]
    decide
  · rw [List.countP_cons, countP_cmh_zero _ _ _ _ (fun hd => by rfl)]
    decide
  · intro hd hmem
    rw [List.countP_cons, countP_cmh_header, missingHdrList_count hd hmem]
    by_cases hmemh : probe.parsedHeaderNames.contains hd <;> simp [hmemh]

/-- Claim C1 witness: the concrete `304` probe. -/
theorem claim_C1_witness :
    (LmValidate.done none demoBase demoProbe304).1 = some true ∧
    ((LmValidate.done none demoBase demoProbe304).2.countP
        (fun n => decide (n.name = NoteName.MISSING_HDRS_304 ∧
          ("header", some "vary") ∈ n.vars))) = 1 := by
  have h := claim_C1_ims304_good_and_missing_headers none demoBase demoProbe304 rfl rfl
  refine ⟨h.1, ?_⟩
  rw [h.2.2.2 "vary" (by decide)]
  decide

/-- Claim C2 counterexample: on a complete probe repeating the base
status, the code emits the Warn (`IMS_FULL`, flag set to false) when the
content hashes are identical and the Info (`IMS_UNKNOWN`, flag
unchanged) when they differ — the reverse of the claim's assignment of
outcomes to the two hash cases. -/
theorem claim_C2_counterexample :
    (demoProbeDiffHash.complete = true ∧
     demoProbeDiffHash.status_code = demoBase.status_code ∧
     demoProbeDiffHash.status_code ≠ some "304" ∧
     demoProbeDiffHash.payload_md5 ≠ demoBase.payload_md5 ∧
     (LmValidate.done none demoBase demoProbeDiffHash).1 ≠ some false ∧
     ((LmValidate.done none demoBase demoProbeDiffHash).2.countP
        (fun n => decide (noteLevel n.name = Level.warn))) = 0) ∧
    (demoProbeSameHash.complete = true ∧
     demoProbeSameHash.status_code = demoBase.status_code ∧
     demoProbeSameHash.status_code ≠ some "304" ∧
     demoProbeSameHash.payload_md5 = demoBase.payload_md5 ∧
     (LmValidate.done none demoBase demoProbeSameHash).1 ≠ none ∧
     ((LmValidate.done none demoBase demoProbeSameHash).2.countP
        (fun n => decide (noteLevel n.name = Level.info))) = 0) := by decide

/-- Claim C2 (amended): for a complete probe whose status equals the base
status and is not `304`: when the content hashes are identical, `done`
sets `ims_support` to false and emits exactly one Warn note; when they
differ, it emits exactly one Info note and leaves `ims_support`
unchanged. -/
theorem claim_C2_swapped_hash_branches (flag : Option Bool) (base probe : Response)
    (hc : probe.complete = true) (h304 : probe.status_code ≠ some "304")
    (hs : probe.status_code = base.status_code) :
    (probe.payload_md5 = base.payload_md5 →
      (LmValidate.done flag base probe).1 = some false ∧
      ((LmValidate.done flag base probe).2.countP
        (fun n => decide (noteLevel n.name = Level.warn))) = 1 ∧
      (LmValidate.done flag base probe).2.length = 1) ∧
    (probe.payload_md5 ≠ base.payload_md5 →
      (LmValidate.done flag base probe).1 = flag ∧
      ((LmValidate.done flag base probe).2.countP
        (fun n => decide (noteLevel n.name = Level.info))) = 1 ∧
      (LmValidate.done flag base probe).2.length = 1) := by
  constructor
  · intro hmd5
    rw [done_same_status_same_hash flag base probe hc h304 hs hmd5]
    exact ⟨rfl, rfl, rfl⟩
  · intro hmd5
    rw [done_same_status_diff_hash flag base probe hc h304 hs hmd5]
    exact ⟨rfl, rfl, rfl⟩

/-- Claim C2 witness: the two concrete same-status probes. -/
theorem claim_C2_witness :
    (LmValidate.done none demoBase demoProbeSameHash).1 = some false ∧
    (LmValidate.done none demoBase demoProbeDiffHash).1 = none := by
  have h1 := claim_C2_swapped_hash_branches none demoBase demoProbeSameHash rfl
    (by decide) rfl
  have h2 := claim_C2_swapped_hash_branches none demoBase demoProbeDiffHash rfl
    (by decide) rfl
  exact ⟨(h1.1 rfl).1, (h2.2 (by decide)).1⟩

/-- Claim C3: for every valid modification timestamp, the
`If-Modified-Since` value is rendered exactly as the spec describes
(static three-letter English weekday/month tables, two-digit zero-padded
day/hour/minute/second, four-digit zero-padded year, `GMT` suffix), the
value is appended by `modify_req_hdrs`, and the timestamp
2023-03-05T07:08:09 UTC renders exactly as
`Sun, 05 Mar 2023 07:08:09 GMT`. -/
theorem claim_C3_ims_date_format :
    (∀ ts : Int, ∀ dt : PyDatetime, utcfromtimestamp ts = some dt →
      LmValidate.date_str dt = render_ims_spec dt) ∧
    (∀ (hdrs : List (String × String)) (resp : Response) (lm : Int) (dt : PyDatetime),
      resp.lastModified = some lm → utcfromtimestamp lm = some dt →
      LmValidate.modify_req_hdrs hdrs resp =
        hdrs ++ [("If-Modified-Since", LmValidate.date_str dt)]) ∧
    LmValidate.modify_req_hdrs demoReqHdrs demoBase =
      demoReqHdrs ++ [("If-Modified-Since", "Sun, 05 Mar 2023 07:08:09 GMT")] := by
  refine ⟨?_, ?_, by decide⟩
  · intro ts dt h
    have hb := utcfromtimestamp_field_bounds ts dt h
    exact date_str_eq_render_ims_spec dt hb.2.2.1 hb.2.2.2.1
      (by have := hb.1; omega)
  · intro hdrs resp lm dt h1 h2
    unfold LmValidate.modify_req_hdrs
    simp only [h1, h2]

/-- Claim C3 witness: the format equality applied at the concrete
timestamp 1678000089 (2023-03-05T07:08:09 UTC). -/
theorem claim_C3_witness :
    LmValidate.date_str
        { year := 2023, month := 3, day := 5, hour := 7, minute := 8,
          second := 9, weekday := 6 } =
      render_ims_spec
        { year := 2023, month := 3, day := 5, hour := 7, minute := 8,
          second := 9, weekday := 6 } :=
  claim_C3_ims_date_format.1 1678000089 _ (by decide)

/-- Claim C4: for an incomplete probe response, `done` emits exactly one
Bad note carrying the failure detail, leaves `ims_support` unchanged, and
emits no other note (classification is a total function, so nothing can
be raised past the check boundary). -/
theorem claim_C4_incomplete_probe_bad_note (flag : Option Bool) (base probe : Response)
    (hc : probe.complete = false) :
    (LmValidate.done flag base probe).1 = flag ∧
    (LmValidate.done flag base probe).2 =
      [{ subject := "", name := NoteName.LM_SUBREQ_PROBLEM,
         vars := [("problem", some probe.httpErrorDesc)] }] ∧
    ((LmValidate.done flag base probe).2.countP
        (fun n => decide (noteLevel n.name = Level.bad))) = 1 ∧
    (LmValidate.done flag base probe).2.length = 1 := by
  rw [done_incomplete flag base probe hc]
  exact ⟨rfl, rfl, rfl, rfl⟩

/-- Claim C4 witness: the concrete failed probe. -/
theorem claim_C4_witness :
    (LmValidate.done none demoBase demoProbeIncomplete).2 =
      [{ subject := "", name := NoteName.LM_SUBREQ_PROBLEM,
         vars := [("problem", some "connection reset by peer")] }] :=
  (claim_C4_incomplete_probe_bad_note none demoBase demoProbeIncomplete rfl).2.1

/-- Claim C5: when the base response's `last-modified` value cannot be
interpreted as a timestamp (`datetime.utcfromtimestamp` raises
`ValueError`), `modify_req_hdrs` returns the base request headers
unmodified. -/
theorem claim_C5_uninterpretable_timestamp_fallback
    (hdrs : List (String × String)) (resp : Response) (lm : Int)
    (hlm : resp.lastModified = some lm) (hbad : utcfromtimestamp lm = none) :
    LmValidate.modify_req_hdrs hdrs resp = hdrs := by
  unfold LmValidate.modify_req_hdrs
  simp only [hlm, hbad]

/-- Claim C5 witness: a `Last-Modified` timestamp in year 11476. -/
theorem claim_C5_witness :
    LmValidate.modify_req_hdrs demoReqHdrs demoBaseFarFuture = demoReqHdrs :=
  claim_C5_uninterpretable_timestamp_fallback demoReqHdrs demoBaseFarFuture
    300000000000 rfl (by decide)

/-- Claim C6: without a parsed `last-modified` header the check is
inapplicable: `preflight` returns false, sets `ims_support` to false, and
no probe is dispatched and no note emitted; with the header present it
returns true and leaves the flag unchanged. -/
theorem claim_C6_preflight_applicability :
    (∀ (flag : Option Bool) (base probe : Response), base.lastModified = none →
      LmValidate.preflight flag base = (false, some false) ∧
      LmValidate.run_check flag base probe = (false, some false, [])) ∧
    (∀ (flag : Option Bool) (base : Response), base.lastModified.isSome →
      LmValidate.preflight flag base = (true, flag)) := by
  constructor
  · intro flag base probe h
    have hp : LmValidate.preflight flag base = (false, some false) := by
      simp [LmValidate.preflight, h]
    exact ⟨hp, by simp [LmValidate.run_check, hp]⟩
  · intro flag base h
    simp [LmValidate.preflight, h]

/-- Claim C6 witness: a base exchange without `Last-Modified` and one
with it. -/
theorem claim_C6_witness :
    LmValidate.run_check none demoBaseNoLm demoProbe304 = (false, some false, []) ∧
    LmValidate.preflight none demoBase = (true, none) :=
  ⟨(claim_C6_preflight_applicability.1 none demoBaseNoLm demoProbe304 rfl).2,
   claim_C6_preflight_applicability.2 none demoBase rfl⟩

/-- Claim C7: for a complete probe whose status is neither `304` nor the
base status, `done` emits exactly one Info note naming the actual status
code and leaves `ims_support` unchanged; moreover classification is
exhaustive — every probe outcome falls into a branch that emits at least
one note, so no outcome is silently dropped. -/
theorem claim_C7_other_status_info_and_exhaustive :
    (∀ (flag : Option Bool) (base probe : Response), probe.complete = true →
      probe.status_code ≠ some "304" → probe.status_code ≠ base.status_code →
      (LmValidate.done flag base probe).1 = flag ∧
      (LmValidate.done flag base probe).2 =
        [{ subject := "header-last-modified", name := NoteName.IMS_STATUS,
           vars := [("ims_status", probe.status_code),
                    ("enc_ims_status", some (pyOr probe.status_code "(unknown)"))] }] ∧
      ((LmValidate.done flag base probe).2.countP
          (fun n => decide (noteLevel n.name = Level.info))) = 1 ∧
      (LmValidate.done flag base probe).2.length = 1) ∧
    (∀ (flag : Option Bool) (base probe : Response),
      (LmValidate.done flag base probe).2 ≠ []) := by
  constructor
  · intro flag base probe hc h304 hs
    rw [done_other_status flag base probe hc h304 hs]
    exact ⟨rfl, rfl, rfl, rfl⟩
  · intro flag base probe
    by_cases h1 : probe.complete = false
    · rw [done_incomplete _ _ _ h1]
      simp
    · have hc : probe.complete = true := by
        revert h1
        cases probe.complete <;> simp
      by_cases h2 : probe.status_code = some "304"
      · rw [done_304 _ _ _ hc h2]
        simp
      · by_cases h3 : probe.status_code = base.status_code
        · by_cases h4 : probe.payload_md5 = base.payload_md5
          · rw [done_same_status_same_hash _ _ _ hc h2 h3 h4]
            simp
          · rw [done_same_status_diff_hash _ _ _ hc h2 h3 h4]
            simp
        · rw [done_other_status _ _ _ hc h2 h3]
          simp

/-- Claim C7 witness: the concrete `500` probe. -/
theorem claim_C7_witness :
    (LmValidate.done none demoBase demoProbe500).1 = none ∧
    ((LmValidate.done none demoBase demoProbe500).2.countP
        (fun n => decide (noteLevel n.name = Level.info))) = 1 := by
  have h := claim_C7_other_status_info_and_exhaustive.1 none demoBase demoProbe500
    rfl (by decide) (by decide)
  exact ⟨h.1, h.2.2.1⟩

/-- Claim C8 counterexample: the HTML formatters key notes by
`id(note)`, the runtime object identity: the same note rendered under two
identities receives two different keys, and two different notes under one
identity receive the same key — so the key is not a stable identifier
assigned at Note creation. -/
theorem claim_C8_counterexample :
    SingleEntryHtmlFormatter.noteid demoNote 1 ≠ SingleEntryHtmlFormatter.noteid demoNote 2 ∧
    TableHtmlFormatter.msgid demoNote 1 ≠ TableHtmlFormatter.msgid demoNote 2 ∧
    SingleEntryHtmlFormatter.noteid demoNote 7 =
      SingleEntryHtmlFormatter.noteid
        { subject := "other", name := NoteName.IMS_FULL, vars := [] } 7 := by decide

/-- Claim C8 (amended): the identifier the HTML formatters use to key
each note (`noteid-…` in `format_category` and its `hidden_text`, and
`msgid-…` in `format_problems`) is derived from the
implementation-internal runtime object identity `id(note)`, not from any
creation-time field of the Note: it is independent of the note's content
and varies with the runtime identity. -/
theorem claim_C8_runtime_identity_keys :
    (∀ (n1 n2 : Note) (i : Nat),
      SingleEntryHtmlFormatter.noteid n1 i = SingleEntryHtmlFormatter.noteid n2 i) ∧
    (∀ (n1 n2 : Note) (i : Nat),
      TableHtmlFormatter.msgid n1 i = TableHtmlFormatter.msgid n2 i) ∧
    (∀ (n : Note) (i : Nat),
      SingleEntryHtmlFormatter.hiddenKey n i = SingleEntryHtmlFormatter.noteid n i) ∧
    SingleEntryHtmlFormatter.noteid demoNote 1 ≠ SingleEntryHtmlFormatter.noteid demoNote 2 ∧
    TableHtmlFormatter.msgid demoNote 1 ≠ TableHtmlFormatter.msgid demoNote 2 := by
  exact ⟨fun n1 n2 i => rfl, fun n1 n2 i => rfl, fun n i => rfl, by decide, by decide⟩

/-- Claim C9 counterexample: `HeaderPresenter.Show` resolves handlers by
reflection (`hasattr`/`getattr`), not by a closed table: a header named
`Formatter` is dispatched to the presenter's `formatter` attribute, which
the closed mechanism mapping of the claim would never select. -/
theorem claim_C9_counterexample :
    HeaderPresenter.Show "Formatter" =
      some (HeaderPresenter.Dispatch.attrCall HeaderPresenter.Attr.formatter) ∧
    HeaderPresenter.specDispatch "Formatter" = some HeaderPresenter.Dispatch.default ∧
    HeaderPresenter.Show "Formatter" ≠ HeaderPresenter.specDispatch "Formatter" := by decide

/-- Claim C9 (amended): handler resolution is by reflection over the
presenter's attributes: the three mechanism tokens `content_location`,
`location` and `x_xrds_location` do resolve to the `BARE_URI` handler,
but any other attribute whose name matches the header token — in
particular the instance attribute `formatter` — is also selected, and
headers matching no attribute fall back to the default escape-and-wrap
presentation. -/
theorem claim_C9_reflective_dispatch :
    (∀ nm : String,
      HeaderPresenter.name_token nm = "content_location" ∨
      HeaderPresenter.name_token nm = "location" ∨
      HeaderPresenter.name_token nm = "x_xrds_location" →
      HeaderPresenter.Show nm =
        some (HeaderPresenter.Dispatch.attrCall HeaderPresenter.Attr.BARE_URI)) ∧
    (∀ nm : String, HeaderPresenter.name_token nm = "formatter" →
      HeaderPresenter.Show nm =
        some (HeaderPresenter.Dispatch.attrCall HeaderPresenter.Attr.formatter)) ∧
    HeaderPresenter.Show "ETag" = some HeaderPresenter.Dispatch.default ∧
    HeaderPresenter.Show "Content-Location" =
      some (HeaderPresenter.Dispatch.attrCall HeaderPresenter.Attr.BARE_URI) := by
  refine ⟨?_, ?_, by decide, by decide⟩
  · intro nm h
    unfold HeaderPresenter.Show
    rcases h with h | h | h <;> rw [h] <;> decide
  · intro nm h
    unfold HeaderPresenter.Show
    rw [h]
    decide

/-- Claim C9 witness: the `Location` header resolves to the bare-URI
handler through the reflective path. -/
theorem claim_C9_witness :
    HeaderPresenter.Show "Location" =
      some (HeaderPresenter.Dispatch.attrCall HeaderPresenter.Attr.BARE_URI) :=
  claim_C9_reflective_dispatch.1 "Location" (Or.inr (Or.inl (by decide)))

/-- Claim C10: `modify_req_hdrs` returns the base request headers, in
order and unmodified, as a prefix, followed by at most one appended
header pair, which can only be the `If-Modified-Since` conditional. -/
theorem claim_C10_base_headers_prefix (hdrs : List (String × String)) (resp : Response) :
    ∃ extra : List (String × String),
      LmValidate.modify_req_hdrs hdrs resp = hdrs ++ extra ∧
      extra.length ≤ 1 ∧ ∀ pr ∈ extra, pr.1 = "If-Modified-Since" := by
  unfold LmValidate.modify_req_hdrs
  cases hl : resp.lastModified with
  | none => exact ⟨[], by simp, by simp, by simp⟩
  | some lm =>
    dsimp only
    cases hu : utcfromtimestamp lm with
    | none => exact ⟨[], by simp, by simp, by simp⟩
    | some dt =>
      dsimp only
      exact ⟨[("If-Modified-Since", LmValidate.date_str dt)], rfl, by simp, by simp⟩

end Redbot
